import Mathlib

/-!
Shallow embedding of the real-time voice-agent pipeline orchestrator
(`app/main.py`, endpoint `complete_voice_agent_websocket`, together with
`app/config.py` and `app/services/tts_service.py`), and proofs of the
specification's claims about it.

Conventions of the embedding:
* time is measured in milliseconds as a `Nat`; the debounce delay
  `asyncio.sleep(1.0)` becomes `debounce_delay_ms = 1000`, the keepalive
  interval `asyncio.sleep(30)` becomes 30 (seconds);
* messages sent to the client over the websocket become constructors of
  `Msg`; calls into the adapters (recognizer client, timers, keepalive)
  become constructors of `Action`;
* a Python byte string becomes `List Nat`; truthiness of
  `transcript.strip()` becomes non-blankness of the string.
-/

namespace VoiceAgent

/-- Python `str.strip()` yields a falsy (empty) string exactly when every
character of the string is whitespace.  `event.transcript.strip()` used as a
condition in `on_turn` (main.py:1343) is therefore `!isBlank transcript`. -/
def isBlank (s : String) : Bool :=
  s.data.all (fun c => c.isWhitespace)

/-- A recognizer turn event as delivered by the AssemblyAI streaming client
to `on_turn` (main.py:1330). -/
structure TurnEvent where
  transcript : String
  end_of_turn : Bool
deriving DecidableEq, Repr

/-- JSON messages the endpoint sends to the client (main.py, handler
`complete_voice_agent_websocket`).  Each constructor carries the fields the
claims inspect; `nonfinal_transcript` models the message whose `type` field
is the string "partial_transcript" (main.py:1414). -/
inductive Msg where
  | ready
  | stt_started
  | nonfinal_transcript (text : String)
  | final_transcript (text : String)
  | no_speech_detected
  | refined_final_transcript (text : String)
  | pipeline_status (step status : String)
  | llm_chunk (text : String)
  | llm_complete (text : String)
  | audio_chunk (data : String) (is_final : Bool) (chunk_index : Nat)
  | tts_complete (chunks_sent : Nat)
  | pipeline_complete (transcript response : String) (chunks_sent : Nat)
  | pipeline_error (message : String)
  | recording_started
  | recording_stopped
  | error_msg (message : String)
  | unknown_command
  | chat_history_reply
deriving DecidableEq, Repr

/-- Calls the endpoint makes into its owned resources: the AssemblyAI
streaming client, the debounce timer future, the keepalive task and the
websocket itself. -/
inductive Action where
  | disconnect_streaming_client
  | create_streaming_client
  | stream_audio (len : Nat)
  | cancel_timer
  | start_timer (deadline : Nat)
  | cancel_keepalive
  | close_ws (code : Nat)
deriving DecidableEq, Repr

/-- The handler-local mutable state of `complete_voice_agent_websocket`
(main.py:1304-1316): the current streaming client, the recording flag, the
session/voice selection, the debounce candidate `last_final_transcript` and
the pending timer `final_transcript_timer` (modelled by its deadline), and
whether the keepalive task is still running. -/
structure SessionState where
  streaming_client : Option Nat
  is_recording : Bool
  current_session_id : Option String
  current_voice_id : String
  last_final_transcript : String
  final_transcript_timer : Option Nat
  keepalive_running : Bool
deriving DecidableEq, Repr

/-- The state right after service initialization (main.py:1304-1316). -/
def initialState : SessionState where
  streaming_client := none
  is_recording := false
  current_session_id := none
  current_voice_id := "en-US-natalie"
  last_final_transcript := ""
  final_transcript_timer := none
  keepalive_running := true

/-- `asyncio.sleep(1.0)` in `process_refined_transcript` (main.py:1389),
in milliseconds. -/
def debounce_delay_ms : Nat := 1000

/-- `send_turn_to_client` (main.py:1409-1431): a non-final turn yields a
single partial-transcript message; an end-of-turn turn yields the stt
`pipeline_status` followed by `final_transcript` — unconditionally, before
`on_turn` looks at the transcript's content. -/
def send_turn_to_client (e : TurnEvent) : List Msg :=
  if !e.end_of_turn then
    [.nonfinal_transcript e.transcript]
  else
    [.pipeline_status "stt" "complete", .final_transcript e.transcript]

/-- `on_turn` (main.py:1330-1367), invoked at time `now`.  It always emits
the `send_turn_to_client` messages.  On a non-blank end-of-turn transcript it
stores the transcript in `last_final_transcript`, cancels the pending timer
if one exists, and starts a new one with deadline `now + 1000`.  On a blank
end-of-turn transcript it additionally emits `no_speech_detected` and leaves
the timer alone.  Returns (new state, messages sent, adapter actions). -/
def on_turn (now : Nat) (e : TurnEvent) (s : SessionState) :
    SessionState × List Msg × List Action :=
  let base := send_turn_to_client e
  if e.end_of_turn then
    if !isBlank e.transcript then
      let cancels : List Action :=
        match s.final_transcript_timer with
        | some _ => [.cancel_timer]
        | none => []
      ({ s with
          last_final_transcript := e.transcript,
          final_transcript_timer := some (now + debounce_delay_ms) },
        base,
        cancels ++ [.start_timer (now + debounce_delay_ms)])
    else
      (s, base ++ [.no_speech_detected], [])
  else
    (s, base, [])

/-- The pending timer firing (`process_refined_transcript` after its sleep,
main.py:1385-1402): it reads `last_final_transcript` — not the transcript it
was started with — commits it, and clears the pending state.  The committed
transcript is what gets handed to `process_with_llm_and_tts`, i.e. each
element of the commit list is one started generate→synthesize invocation. -/
def fireTimer (s : SessionState) : SessionState × String :=
  ({ s with final_transcript_timer := none }, s.last_final_transcript)

/-- One end-of-turn arrival in a timed run: if the pending timer's deadline
has already passed at the event's arrival time, the timer fires first
(committing a transcript); then `on_turn` handles the event. -/
def stepEvent (acc : SessionState × List String) (te : Nat × TurnEvent) :
    SessionState × List String :=
  let (s, commits) := acc
  let (t, e) := te
  let (s1, commits1) :=
    match s.final_transcript_timer with
    | some d => if d ≤ t then ((fireTimer s).1, commits ++ [(fireTimer s).2]) else (s, commits)
    | none => (s, commits)
  ((on_turn t e s1).1, commits1)

/-- Run a timed sequence of recognizer events, then let any still-pending
timer expire (no further event supersedes it).  Returns the final state and
the list of committed transcripts, in commit order. -/
def runDebounce (s0 : SessionState) (events : List (Nat × TurnEvent)) :
    SessionState × List String :=
  let (s, commits) := events.foldl stepEvent (s0, [])
  match s.final_transcript_timer with
  | some _ => ((fireTimer s).1, commits ++ [(fireTimer s).2])
  | none => (s, commits)

/-- Each event of the list arrives within the debounce window of its
predecessor: timestamps are non-decreasing and each gap is under the
1000 ms delay. -/
def withinWindow : List (Nat × TurnEvent) → Bool
  | [] => true
  | [_] => true
  | (t1, _) :: (t2, e2) :: rest =>
      t1 ≤ t2 && t2 < t1 + debounce_delay_ms && withinWindow ((t2, e2) :: rest)

/-- Every event of the list is an end-of-turn event with a non-blank
transcript. -/
def allNonEmptyEot (events : List (Nat × TurnEvent)) : Bool :=
  events.all (fun te => te.2.end_of_turn && !isBlank te.2.transcript)

/-- The transcript of the last event of the list, or the default `c` when the
list is empty.  Since the claims only consider non-blank transcripts, this is
"the last non-empty transcript". -/
def lastTranscript (c : String) : List (Nat × TurnEvent) → String
  | [] => c
  | (_, e) :: rest => lastTranscript e.transcript rest

/-- Each event time lies strictly below the running timer deadline, the
deadline being restarted to `t + 1000` at each event.  This is the shape the
debounce-window hypothesis takes after the first event has been handled. -/
def chainFrom (d : Nat) : List (Nat × TurnEvent) → Bool
  | [] => true
  | (t, _) :: rest => decide (t < d) && chainFrom (t + debounce_delay_ms) rest

/-- The `start_recording` branch of the receive loop (main.py:1584-1630).
`data_session_id`/`data_voice_id` are the optional JSON fields (defaults:
a fresh uuid4 and "en-US-natalie"); `new_client` identifies the streaming
client that `create_streaming_client` would return and `connect_ok` tells
whether creating/connecting it succeeds (main.py:1607-1630).  If a previous
streaming client exists it is disconnected first (main.py:1591-1597).  The
branch never touches `final_transcript_timer`. -/
def handle_start_recording (data_session_id : Option String) (fresh_uuid : String)
    (data_voice_id : Option String) (new_client : Nat) (connect_ok : Bool)
    (s : SessionState) : SessionState × List Msg × List Action :=
  let sid := data_session_id.getD fresh_uuid
  let vid := data_voice_id.getD "en-US-natalie"
  let s0 := { s with current_session_id := some sid, current_voice_id := vid }
  let (s1, acts1) :=
    match s0.streaming_client with
    | some _ => ({ s0 with streaming_client := none }, [Action.disconnect_streaming_client])
    | none => (s0, ([] : List Action))
  let msgs1 : List Msg := [.pipeline_status "recording" "active"]
  if connect_ok then
    ({ s1 with streaming_client := some new_client, is_recording := true },
      msgs1 ++ [.recording_started],
      acts1 ++ [.create_streaming_client])
  else
    (s1, msgs1 ++ [.error_msg "Failed to start recording"],
      acts1 ++ [.create_streaming_client])

/-- The `finally` block of the endpoint (main.py:1707-1727): cancel the
keepalive task if it is still running, disconnect the streaming client if one
exists (swallowing failures), then close the websocket.  Nothing in the block
refers to `final_transcript_timer`. -/
def finallyBlock (s : SessionState) : SessionState × List Action :=
  let (s1, a1) :=
    if s.keepalive_running then
      ({ s with keepalive_running := false }, [Action.cancel_keepalive])
    else (s, ([] : List Action))
  let (s2, a2) :=
    match s1.streaming_client with
    | some _ => ({ s1 with streaming_client := none }, [Action.disconnect_streaming_client])
    | none => (s1, ([] : List Action))
  (s2, a1 ++ a2 ++ [Action.close_ws 1000])

/-- The `keepalive` coroutine (main.py:1229-1245): `while True: sleep(30);
try ping except: log and break`.  `probes` gives the outcome of each
successive `websocket.ping()` attempt; the i-th attempt happens `30 * (i+1)`
seconds after connection start.  The loop body mutates no session state and
calls no adapter: on a failed probe it only logs a warning and exits its own
loop.  Returns (attempted-ping times, session state after the loop exits,
adapter actions performed by the loop). -/
def keepalive_go : List Bool → Nat → SessionState → List Nat × SessionState × List Action
  | [], _, s => ([], s, [])
  | ok :: rest, i, s =>
      let t := 30 * (i + 1)
      if ok then
        let (ts, s1, acts) := keepalive_go rest (i + 1) s
        (t :: ts, s1, acts)
      else
        ([t], s, [])

/-- Entry point of the keepalive coroutine: probes counted from the start of
the connection. -/
def keepalive_run (probes : List Bool) (s : SessionState) :
    List Nat × SessionState × List Action :=
  keepalive_go probes 0 s

/-- One JSON message received from the Murf websocket inside
`TTSService.stream_text_to_speech` (tts_service.py:232-272): it may carry a
base64 `audio` field, and a truthy `final` field ends the stream. -/
structure MurfMsg where
  audio : Option String
  final : Bool
deriving DecidableEq, Repr

/-- The messages `stream_text_to_speech` yields, given the sequence of
messages the Murf websocket delivers before it (or the connection) ends: the
generator yields every received message and stops after the first one whose
`final` field is truthy (tts_service.py:250-272).  If the connection ends
(or a receive error occurs) before a final message, the loop breaks and the
yielded sequence is simply the whole received prefix, with no final
message in it. -/
def streamYield : List MurfMsg → List MurfMsg
  | [] => []
  | m :: rest => if m.final then [m] else m :: streamYield rest

/-- Only the last message of the list may carry a truthy `final` flag.  This
is the shape of every sequence `stream_text_to_speech` yields. -/
def onlyLastFinal : List MurfMsg → Bool
  | [] => true
  | m :: rest => (rest.isEmpty || !m.final) && onlyLastFinal rest

/-- One `audio_chunk` message sent to the client (main.py:1529-1534). -/
structure AudioChunk where
  data : String
  is_final : Bool
  chunk_index : Nat
deriving DecidableEq, Repr

/-- The audio-chunk loop of `process_with_llm_and_tts` (main.py:1520-1536):
`chunk_index` starts at `idx` (0 at the top of the loop), is incremented
only for messages that carry an `audio` field, and each such message is sent
with `is_final = tts_chunk.get("final", False)`. -/
def sendChunks : List MurfMsg → Nat → List AudioChunk
  | [], _ => []
  | m :: rest, idx =>
      match m.audio with
      | some a =>
          { data := a, is_final := m.final, chunk_index := idx + 1 } :: sendChunks rest (idx + 1)
      | none => sendChunks rest idx

/-- The `audio_chunk` messages one synthesis invocation sends to the client,
as a function of the message sequence the Murf websocket delivers. -/
def audioChunksSent (upstream : List MurfMsg) : List AudioChunk :=
  sendChunks (streamYield upstream) 0

/-- One chat-history entry (`ChatService.add_message`,
chat_service.py:26-50). -/
structure ChatMsg where
  role : String
  content : String
deriving DecidableEq, Repr

/-- Outcome of iterating an upstream async generator from `main.py`'s side:
either it yields `items` and completes, or it yields `items` and then raises
with message `err` (the generators convert their internal failures to
`HTTPException`s, llm_service.py / tts_service.py). -/
inductive StreamOutcome (α : Type) where
  | ok (items : List α)
  | fail (items : List α) (err : String)
deriving DecidableEq, Repr

/-- `process_with_llm_and_tts` (main.py:1462-1560), as a function of the
committed transcript, the current chat history, and the outcomes of the two
upstream streams.  The whole body is wrapped in try/except: any exception
raised at any point of the body reaches the except branch, which sends a
single `pipeline_error` (main.py:1553-1558).  On the success path the
terminal message is a single `pipeline_complete`.  Returns (messages sent,
chat history after the call). -/
def process_with_llm_and_tts (transcript : String) (chat0 : List ChatMsg)
    (llm : StreamOutcome String) (tts : StreamOutcome MurfMsg) :
    List Msg × List ChatMsg :=
  let chat1 := chat0 ++ [{ role := "user", content := transcript }]
  let pre : List Msg := [.pipeline_status "ai" "thinking", .pipeline_status "ai" "processing"]
  match llm with
  | .fail chunks e =>
      (pre ++ chunks.map Msg.llm_chunk ++ [.pipeline_error ("Processing error: " ++ e)], chat1)
  | .ok chunks =>
      let resp := String.join chunks
      let chat2 := chat1 ++ [{ role := "assistant", content := resp }]
      let mid := pre ++ chunks.map Msg.llm_chunk ++
        [.llm_complete resp, .pipeline_status "ai" "complete",
          .pipeline_status "tts" "generating"]
      match tts with
      | .fail ms e =>
          (mid ++ (sendChunks ms 0).map (fun c => Msg.audio_chunk c.data c.is_final c.chunk_index)
            ++ [.pipeline_error ("Processing error: " ++ e)], chat2)
      | .ok ms =>
          let cs := sendChunks ms 0
          (mid ++ cs.map (fun c => Msg.audio_chunk c.data c.is_final c.chunk_index)
            ++ [.tts_complete cs.length, .pipeline_complete transcript resp cs.length], chat2)

/-- A message is a terminal outcome of a pipeline invocation: either
`pipeline_complete` or `pipeline_error`. -/
def isTerminalMsg : Msg → Bool
  | .pipeline_complete _ _ _ => true
  | .pipeline_error _ => true
  | _ => false

/-- The state `Config` holds (config.py:22-39): the per-service runtime keys
set through the frontend, and the values read from the environment at import
time.  `none` models a key that Python would treat as falsy (unset
environment variable / never set at runtime). -/
structure ConfigState where
  runtime_api_keys : List (String × String)
  MURF_API_KEY : Option String
  ASSEMBLYAI_API_KEY : Option String
  GEMINI_API_KEY : Option String
  TAVILY_API_KEY : Option String
  OPENWEATHER_API_KEY : Option String
  NEWS_API_KEY : Option String
  GOOGLE_TRANSLATE_API_KEY : Option String
deriving DecidableEq, Repr

/-- Dictionary lookup in `Config._runtime_api_keys`. -/
def lookupRuntime (keys : List (String × String)) (service : String) : Option String :=
  (keys.find? (fun kv => kv.1 == service)).map (fun kv => kv.2)

/-- Python `str.upper()` (character-wise uppercasing, as used on the ASCII
service names of config.py). -/
def pyUpper (s : String) : String :=
  ⟨s.data.map Char.toUpper⟩

/-- `Config.get_api_key` with its actual signature — one `service` parameter
(config.py:90-110): uppercase the service name, check the runtime keys, fall
back to the environment map; an unknown service yields the falsy `''`
(modelled `none`). -/
def get_api_key (cfg : ConfigState) (service : String) : Option String :=
  let su := pyUpper service
  match lookupRuntime cfg.runtime_api_keys su with
  | some k => some k
  | none =>
      match su with
      | "MURF" => cfg.MURF_API_KEY
      | "ASSEMBLYAI" => cfg.ASSEMBLYAI_API_KEY
      | "GEMINI" => cfg.GEMINI_API_KEY
      | "TAVILY" => cfg.TAVILY_API_KEY
      | "OPENWEATHER" => cfg.OPENWEATHER_API_KEY
      | "NEWS" => cfg.NEWS_API_KEY
      | "GOOGLE_TRANSLATE" => cfg.GOOGLE_TRANSLATE_API_KEY
      | _ => none

/-- A Python exception relevant to the endpoint's init path. -/
inductive PyExn where
  | typeError (msg : String)
deriving DecidableEq, Repr

/-- Number of parameters `Config.get_api_key` declares besides `cls`
(config.py:91: `def get_api_key(cls, service: str) -> str`). -/
def get_api_key_paramcount : Nat := 1

/-- Python positional-call semantics: a method declared with `declared`
parameters besides `cls`, invoked with `given` positional arguments, raises
`TypeError` before its body runs unless the counts match. -/
def callWithArity (declared given : Nat) (body : Unit → Option String) :
    Except PyExn (Option String) :=
  if given = declared then .ok (body ())
  else .error (.typeError "get_api_key() takes 2 positional arguments but 3 were given")

/-- The call `Config.get_api_key(service, session_id)` as written at
main.py:1258-1260 and main.py:1278-1281: two positional arguments against the
one-parameter signature of config.py:91. -/
def get_api_key_call2 (cfg : ConfigState) (service _session_id : String) :
    Except PyExn (Option String) :=
  callWithArity get_api_key_paramcount 2 (fun _ => get_api_key cfg service)

/-- Result of the service-initialization try block (main.py:1248-1302). -/
inductive InitResult where
  | closed1011
  | ready_ok (assemblyai murf gemini : String)
deriving DecidableEq, Repr

/-- The error message sent before closing with code 1011 (main.py:1294-1299). -/
def initErrorMsgs : List Msg :=
  [.error_msg "API keys not configured. Please configure API keys in the settings."]

/-- The service-initialization step of `complete_voice_agent_websocket`
(main.py:1248-1302): fetch the three required keys via
`Config.get_api_key(service, session_id)`, raise `ValueError` if any is
falsy, construct the services.  Any exception in the block is caught at
main.py:1289: an error message is sent and the socket is closed with code
1011, and the handler returns without ever reaching the receive loop. -/
def serviceInit (cfg : ConfigState) (session_id : String) :
    InitResult × List Msg × List Action :=
  let fail : InitResult × List Msg × List Action :=
    (.closed1011, initErrorMsgs, [.close_ws 1011])
  match get_api_key_call2 cfg "ASSEMBLYAI" session_id with
  | .error _ => fail
  | .ok assemblyai_key =>
      match get_api_key_call2 cfg "MURF" session_id with
      | .error _ => fail
      | .ok murf_key =>
          match get_api_key_call2 cfg "GEMINI" session_id with
          | .error _ => fail
          | .ok gemini_key =>
              match assemblyai_key with
              | none => fail
              | some ak =>
                  match murf_key with
                  | none => fail
                  | some mk =>
                      match gemini_key with
                      | none => fail
                      | some gk => (.ready_ok ak mk gk, [], [])

/-- The connection-setup phase of the endpoint: run service initialization;
only when it succeeds is the `ready` message sent (main.py:1562-1568) and the
receive loop — the only place binary audio frames are read and forwarded —
entered. -/
def endpoint_setup (cfg : ConfigState) (session_id : String) :
    InitResult × List Msg × List Action :=
  match serviceInit cfg session_id with
  | (.closed1011, msgs, acts) => (.closed1011, msgs, acts)
  | (.ready_ok a m g, msgs, acts) => (.ready_ok a m g, msgs ++ [Msg.ready], acts)

/-- Outcome of the binary-frame branch of the receive loop for one frame. -/
inductive FrameOutcome where
  | not_recording
  | forwarded
  | skipped_silent
  | zero_div_error
deriving DecidableEq, Repr

/-- The binary-frame branch (main.py:1677-1694).  The branch runs only while
`is_recording`.  It counts the non-zero bytes, then computes
`silence_ratio = (len(audio_data) - non_zero_bytes) / len(audio_data)` —
which raises `ZeroDivisionError` on an empty frame, an exception the receive
loop does not catch (it propagates to main.py:1698, sending an error and
ending the loop).  Otherwise the frame is streamed to the AssemblyAI client
exactly when at least one byte is non-zero, and silently skipped when all
bytes are zero. -/
def binaryFrameHandler (is_recording : Bool) (audio_data : List Nat) :
    FrameOutcome × List Action :=
  if !is_recording then (.not_recording, [])
  else
    let non_zero_bytes := audio_data.countP (fun b => b != 0)
    if audio_data.length = 0 then (.zero_div_error, [])
    else if non_zero_bytes > 0 then (.forwarded, [.stream_audio audio_data.length])
    else (.skipped_silent, [])

/-! ## Theorems -/

/-- The debounce-window hypothesis, after the first event restarts the
timer, becomes the deadline chain `chainFrom`. -/
theorem chainFrom_of_withinWindow (rest : List (Nat × TurnEvent)) :
    ∀ (t : Nat) (e : TurnEvent), withinWindow ((t, e) :: rest) = true →
      chainFrom (t + debounce_delay_ms) rest = true := by
  induction rest with
  | nil =>
      intro t e _
      rfl
  | cons hd tl ih =>
      intro t e hw
      obtain ⟨t2, e2⟩ := hd
      simp only [withinWindow, Bool.and_eq_true, decide_eq_true_eq] at hw
      obtain ⟨⟨h1, h2⟩, h3⟩ := hw
      simp only [chainFrom, Bool.and_eq_true, decide_eq_true_eq]
      exact ⟨h2, ih t2 e2 h3⟩

/-- While every incoming non-blank end-of-turn event arrives strictly before
the pending timer's deadline, the fold over `stepEvent` commits nothing: it
only keeps replacing the candidate transcript and restarting the timer. -/
theorem foldl_stepEvent_chain (events : List (Nat × TurnEvent)) :
    ∀ (s : SessionState) (commits : List String) (d : Nat),
      s.final_transcript_timer = some d →
      allNonEmptyEot events = true →
      chainFrom d events = true →
      ∃ d2,
        (events.foldl stepEvent (s, commits)).1.final_transcript_timer = some d2 ∧
        (events.foldl stepEvent (s, commits)).1.last_final_transcript
          = lastTranscript s.last_final_transcript events ∧
        (events.foldl stepEvent (s, commits)).2 = commits := by
  induction events with
  | nil =>
      intro s commits d hTimer _ _
      exact ⟨d, hTimer, rfl, rfl⟩
  | cons hd tl ih =>
      intro s commits d hTimer hall hchain
      obtain ⟨t, e⟩ := hd
      simp only [allNonEmptyEot, List.all_cons, Bool.and_eq_true] at hall
      obtain ⟨⟨heot, hblank⟩, halltl⟩ := hall
      simp only [chainFrom, Bool.and_eq_true, decide_eq_true_eq] at hchain
      obtain ⟨hlt, hchtl⟩ := hchain
      have hnotle : ¬ (d ≤ t) := by omega
      have hstep : stepEvent (s, commits) (t, e)
          = ({ s with
               last_final_transcript := e.transcript,
               final_transcript_timer := some (t + debounce_delay_ms) }, commits) := by
        simp [stepEvent, hTimer, hnotle, on_turn, heot, hblank]
      rw [List.foldl_cons, hstep]
      exact ih _ commits (t + debounce_delay_ms) rfl halltl hchtl

/-- `runDebounce` written with explicit projections (definitional). -/
theorem runDebounce_eq (s0 : SessionState) (events : List (Nat × TurnEvent)) :
    runDebounce s0 events =
      (match (events.foldl stepEvent (s0, [])).1.final_transcript_timer with
        | some _ =>
            ((fireTimer (events.foldl stepEvent (s0, [])).1).1,
              (events.foldl stepEvent (s0, [])).2
                ++ [(fireTimer (events.foldl stepEvent (s0, [])).1).2])
        | none => events.foldl stepEvent (s0, [])) := rfl

/-- C1: for every sequence of recognizer end-of-turn events with non-blank
transcripts in which each event arrives within the 1.0-second debounce
window of its predecessor, the session performs exactly one commit — one
invocation of `process_refined_transcript`'s processing, i.e. one
generate→synthesize start — and the committed transcript is the last
(non-empty) transcript of the sequence (main.py:1330-1367, 1385-1407). -/
theorem debounce_exactly_one_commit (t1 : Nat) (e1 : TurnEvent)
    (rest : List (Nat × TurnEvent))
    (hall : allNonEmptyEot ((t1, e1) :: rest) = true)
    (hwin : withinWindow ((t1, e1) :: rest) = true) :
    (runDebounce initialState ((t1, e1) :: rest)).2
      = [lastTranscript e1.transcript rest] := by
  simp only [allNonEmptyEot, List.all_cons, Bool.and_eq_true] at hall
  obtain ⟨⟨heot, hblank⟩, halltl⟩ := hall
  have hstep1 : stepEvent (initialState, ([] : List String)) (t1, e1)
      = ({ initialState with
           last_final_transcript := e1.transcript,
           final_transcript_timer := some (t1 + debounce_delay_ms) }, []) := by
    simp [stepEvent, initialState, on_turn, heot, hblank]
  have hchain := chainFrom_of_withinWindow rest t1 e1 hwin
  obtain ⟨d2, hT, hL, hC⟩ := foldl_stepEvent_chain rest
    { initialState with
      last_final_transcript := e1.transcript,
      final_transcript_timer := some (t1 + debounce_delay_ms) }
    [] (t1 + debounce_delay_ms) rfl halltl hchain
  rw [runDebounce_eq, List.foldl_cons, hstep1, hT]
  simp only [fireTimer, hC, hL]
  rfl

/-- Witness for C1: two end-of-turn transcripts 300 ms apart produce exactly
one commit, of the second transcript. -/
theorem debounce_exactly_one_commit_witness :
    allNonEmptyEot
        [(0, ⟨"hello world", true⟩), (300, ⟨"hello world again", true⟩)] = true ∧
    withinWindow
        [(0, ⟨"hello world", true⟩), (300, ⟨"hello world again", true⟩)] = true ∧
    (runDebounce initialState
        [(0, ⟨"hello world", true⟩), (300, ⟨"hello world again", true⟩)]).2
      = ["hello world again"] :=
  ⟨by decide, by decide, by
    have h := debounce_exactly_one_commit 0 ⟨"hello world", true⟩
      [(300, ⟨"hello world again", true⟩)] (by decide) (by decide)
    simpa [lastTranscript] using h⟩

/-- C2 counterexample: a session holds a pending debounce timer (deadline
1000, candidate "hello").  Handling `start_recording` leaves that timer in
place — no `cancel_timer` call is made towards it — and when the delay later
elapses the superseded candidate "hello" is still committed.  This refutes
the claim that `start_recording` cancels the pending timer and that no
commit of the superseded candidate ever occurs afterwards. -/
theorem start_recording_timer_counterexample :
    let s : SessionState :=
      { streaming_client := some 1, is_recording := false,
        current_session_id := some "s1", current_voice_id := "en-US-natalie",
        last_final_transcript := "hello", final_transcript_timer := some 1000,
        keepalive_running := true }
    let r := handle_start_recording (some "s1") "fresh-uuid" none 2 true s
    r.1.final_transcript_timer = some 1000 ∧
    Action.cancel_timer ∉ r.2.2 ∧
    (runDebounce r.1 []).2 = ["hello"] := by
  decide

/-- C2 (amended): the `start_recording` branch disconnects and replaces the
recognizer streaming client, but it never touches the pending debounce
timer: the timer field is left exactly as it was and no `cancel_timer` call
occurs, so a pending candidate still commits when its delay elapses.  The
timer is only ever cancelled by a newer non-blank end-of-turn transcript
(main.py:1349-1351). -/
theorem start_recording_leaves_timer (dsid : Option String) (u : String)
    (dvid : Option String) (nc : Nat) (ok : Bool) (s : SessionState) :
    (handle_start_recording dsid u dvid nc ok s).1.final_transcript_timer
        = s.final_transcript_timer ∧
    Action.cancel_timer ∉ (handle_start_recording dsid u dvid nc ok s).2.2 := by
  unfold handle_start_recording
  cases hsc : s.streaming_client <;> cases ok <;>
    simp [hsc]

/-- C3 counterexample: a whitespace-only end-of-turn event makes the client
receive the stt `pipeline_status` and a `final_transcript` message in
addition to `no_speech_detected` (main.py:1336-1340 always forwards the turn
via `send_turn_to_client` before the emptiness check), refuting "the client
receives a no_speech_detected message and nothing else for that event". -/
theorem blank_turn_messages_counterexample :
    (on_turn 0 ⟨"   ", true⟩ initialState).2.1
      = [.pipeline_status "stt" "complete", .final_transcript "   ",
          .no_speech_detected] ∧
    (on_turn 0 ⟨"   ", true⟩ initialState).2.1 ≠ [Msg.no_speech_detected] := by
  decide

/-- C3 (amended): for every end-of-turn event whose transcript is empty or
whitespace-only, the client receives exactly the stt `pipeline_status`, the
`final_transcript` echo, and `no_speech_detected`; the session state is
completely unchanged (in particular no debounce timer is started or
cancelled), no adapter action is taken, and no ai/tts `pipeline_status`
is emitted as a consequence of the event. -/
theorem blank_turn_no_pipeline (now : Nat) (e : TurnEvent) (s : SessionState)
    (heot : e.end_of_turn = true) (hblank : isBlank e.transcript = true) :
    on_turn now e s
      = (s, [.pipeline_status "stt" "complete", .final_transcript e.transcript,
          .no_speech_detected], []) := by
  simp [on_turn, send_turn_to_client, heot, hblank]

/-- Witness for C3 (amended), at the whitespace transcript of the spec's
Scenario B. -/
theorem blank_turn_no_pipeline_witness :
    on_turn 7 ⟨"   ", true⟩ initialState
      = (initialState, [.pipeline_status "stt" "complete", .final_transcript "   ",
          .no_speech_detected], []) :=
  blank_turn_no_pipeline 7 ⟨"   ", true⟩ initialState rfl (by decide)

/-- C5 counterexample: in a teardown state with a pending debounce timer,
the `finally` block leaves the timer exactly as it was and performs no
`cancel_timer` call — refuting the claim that the teardown path cancels the
session's pending debounce timer. -/
theorem teardown_timer_counterexample :
    let s : SessionState :=
      { streaming_client := some 1, is_recording := true,
        current_session_id := some "s1", current_voice_id := "en-US-natalie",
        last_final_transcript := "hello", final_transcript_timer := some 1000,
        keepalive_running := true }
    (finallyBlock s).1.final_transcript_timer = some 1000 ∧
    Action.cancel_timer ∉ (finallyBlock s).2 := by
  decide

/-- C5 (amended): when the transport connection ends mid-pipeline, the single
`finally` teardown path cancels the keepalive task (when still running) and
disconnects the recognizer streaming client (when one exists) before the
handler returns — but it does not cancel the session's pending debounce
timer: the timer field is left untouched and no `cancel_timer` call is
made (main.py:1707-1727). -/
theorem teardown_actions (s : SessionState) :
    (s.keepalive_running = true → Action.cancel_keepalive ∈ (finallyBlock s).2) ∧
    (∀ c, s.streaming_client = some c →
      Action.disconnect_streaming_client ∈ (finallyBlock s).2) ∧
    (finallyBlock s).1.final_transcript_timer = s.final_transcript_timer ∧
    Action.cancel_timer ∉ (finallyBlock s).2 := by
  unfold finallyBlock
  cases hk : s.keepalive_running <;> cases hsc : s.streaming_client <;>
    simp [hk, hsc]

/-- Witness for C5 (amended), at a state with both resources live. -/
theorem teardown_actions_witness :
    Action.cancel_keepalive ∈
      (finallyBlock
        { streaming_client := some 1, is_recording := true,
          current_session_id := some "s1", current_voice_id := "en-US-natalie",
          last_final_transcript := "hello", final_transcript_timer := some 1000,
          keepalive_running := true }).2 ∧
    Action.disconnect_streaming_client ∈
      (finallyBlock
        { streaming_client := some 1, is_recording := true,
          current_session_id := some "s1", current_voice_id := "en-US-natalie",
          last_final_transcript := "hello", final_transcript_timer := some 1000,
          keepalive_running := true }).2 :=
  ⟨(teardown_actions _).1 rfl, (teardown_actions _).2.1 1 rfl⟩

/-- The keepalive loop, started at iteration index `i`: it leaves the session
state untouched, performs no adapter action, and attempts its pings at
`30 * (i + j + 1)` seconds. -/
theorem keepalive_go_spec (probes : List Bool) :
    ∀ (i : Nat) (s : SessionState),
      (keepalive_go probes i s).2.1 = s ∧
      (keepalive_go probes i s).2.2 = [] ∧
      ∀ j : Fin (keepalive_go probes i s).1.length,
        (keepalive_go probes i s).1.get j = 30 * (i + j.1 + 1) := by
  induction probes with
  | nil =>
      intro i s
      exact ⟨rfl, rfl, fun j => absurd j.2 (by simp [keepalive_go])⟩
  | cons ok rest ih =>
      intro i s
      cases ok with
      | true =>
          obtain ⟨h1, h2, h3⟩ := ih (i + 1) s
          refine ⟨?_, ?_, ?_⟩
          · simpa [keepalive_go] using h1
          · simpa [keepalive_go] using h2
          · intro j
            match j with
            | ⟨0, _⟩ => simp [keepalive_go]
            | ⟨k + 1, hk⟩ =>
                have hk2 : k < (keepalive_go rest (i + 1) s).1.length := by
                  simpa [keepalive_go] using hk
                have := h3 ⟨k, hk2⟩
                simp only [keepalive_go] at *
                simpa [Nat.add_assoc, Nat.add_comm, Nat.add_left_comm] using this
      | false =>
          refine ⟨by simp [keepalive_go], by simp [keepalive_go], ?_⟩
          intro j
          match j with
          | ⟨0, _⟩ => simp [keepalive_go]
          | ⟨k + 1, hk⟩ => exact absurd hk (by simp [keepalive_go])

/-- C6 counterexample: the very first probe fails (30 seconds in).  The
keepalive coroutine exits its own loop having touched nothing: the session
state — with its pending debounce timer and connected recognizer client —
is returned unchanged and no adapter action is performed, while the actual
teardown path would have produced actions.  This refutes the claim that a
failed probe triggers the same teardown path as an explicit disconnect. -/
theorem keepalive_failed_probe_counterexample :
    let s : SessionState :=
      { streaming_client := some 1, is_recording := true,
        current_session_id := some "s1", current_voice_id := "en-US-natalie",
        last_final_transcript := "hello", final_transcript_timer := some 1000,
        keepalive_running := true }
    keepalive_run [false] s = ([30], s, []) ∧ (finallyBlock s).2 ≠ [] := by
  decide

/-- C6 (amended): the keepalive monitor attempts a liveness probe every 30
seconds (the i-th attempt at `30 * (i + 1)` seconds) for as long as its loop
runs; a failed probe terminates only the keepalive loop itself
(main.py:1237-1239 logs a warning and breaks): it performs no teardown
action and leaves all session state untouched.  Teardown happens only when
the receive loop ends (main.py:1707-1727). -/
theorem keepalive_probe_schedule (probes : List Bool) (s : SessionState) :
    (keepalive_run probes s).2.1 = s ∧
    (keepalive_run probes s).2.2 = [] ∧
    ∀ j : Fin (keepalive_run probes s).1.length,
      (keepalive_run probes s).1.get j = 30 * (j.1 + 1) := by
  obtain ⟨h1, h2, h3⟩ := keepalive_go_spec probes 0 s
  exact ⟨h1, h2, fun j => by simpa using h3 j⟩

/-- The `chunk_index` values sent by the audio-chunk loop started at counter
`k` are consecutive, beginning at `k + 1`. -/
theorem sendChunks_map_index (l : List MurfMsg) :
    ∀ k : Nat, (sendChunks l k).map (fun c => c.chunk_index)
      = List.range' (k + 1) (sendChunks l k).length := by
  induction l with
  | nil =>
      intro k
      rfl
  | cons m rest ih =>
      intro k
      cases ha : m.audio with
      | some a => simp [sendChunks, ha, ih (k + 1), List.range'_succ]
      | none => simp [sendChunks, ha, ih k]

/-- The sequence `stream_text_to_speech` yields can only carry a truthy
`final` flag on its last message. -/
theorem onlyLastFinal_streamYield (l : List MurfMsg) :
    onlyLastFinal (streamYield l) = true := by
  induction l with
  | nil => rfl
  | cons m rest ih =>
      cases hf : m.final with
      | true => simp [streamYield, hf, onlyLastFinal]
      | false => simp [streamYield, hf, onlyLastFinal, ih]

/-- If only the last upstream message may be final, then any sent chunk
flagged final is the last chunk: its index is the counter start plus the
total number of chunks. -/
theorem sendChunks_final_index (l : List MurfMsg) :
    ∀ k : Nat, onlyLastFinal l = true →
      ∀ c ∈ sendChunks l k, c.is_final = true →
        c.chunk_index = k + (sendChunks l k).length := by
  induction l with
  | nil =>
      intro k _ c hc
      exact absurd hc (by simp [sendChunks])
  | cons m rest ih =>
      intro k holf c hc hfin
      simp only [onlyLastFinal, Bool.and_eq_true] at holf
      obtain ⟨hhead, htail⟩ := holf
      cases ha : m.audio with
      | none =>
          simp only [sendChunks, ha] at hc ⊢
          exact ih k htail c hc hfin
      | some a =>
          simp only [sendChunks, ha, List.mem_cons] at hc
          cases hc with
          | inl hc =>
              subst hc
              simp only at hfin
              have hrest : rest = [] := by
                cases rest with
                | nil => rfl
                | cons x xs => simp [hfin, List.isEmpty] at hhead
              subst hrest
              simp [sendChunks, ha]
          | inr hc =>
              have := ih (k + 1) htail c hc hfin
              simp only [sendChunks, ha, List.length_cons]
              omega

/-- If only the last upstream message may be final, the number of sent
chunks flagged final is 1 when the upstream sequence contains a final
message that carries audio, and 0 otherwise. -/
theorem sendChunks_countFinal (l : List MurfMsg) :
    ∀ k : Nat, onlyLastFinal l = true →
      (sendChunks l k).countP (fun c => c.is_final)
        = if l.any (fun m => m.final && m.audio.isSome) then 1 else 0 := by
  induction l with
  | nil =>
      intro k _
      rfl
  | cons m rest ih =>
      intro k holf
      simp only [onlyLastFinal, Bool.and_eq_true] at holf
      obtain ⟨hhead, htail⟩ := holf
      cases hf : m.final with
      | false =>
          cases ha : m.audio with
          | none => simp [sendChunks, ha, hf, ih k htail]
          | some a => simp [sendChunks, ha, hf, List.countP_cons, ih (k + 1) htail]
      | true =>
          have hrest : rest = [] := by
            cases rest with
            | nil => rfl
            | cons x xs => simp [hf, List.isEmpty] at hhead
          subst hrest
          cases ha : m.audio with
          | none => simp [sendChunks, ha, hf]
          | some a => simp [sendChunks, ha, hf, List.countP_cons]

/-- C4 counterexample: the Murf websocket delivers one non-final audio
message and then the connection closes without a final message
(tts_service.py:240-248 breaks out of the receive loop in that case).  The
invocation sends N = 1 audio chunks, and no sent chunk has
`is_final = true` — refuting "exactly one chunk — the one with index N —
has is_final=true". -/
theorem audio_final_flag_counterexample :
    audioChunksSent [⟨some "YQ==", false⟩]
        = [⟨"YQ==", false, 1⟩] ∧
    (audioChunksSent [⟨some "YQ==", false⟩]).countP (fun c => c.is_final) = 0 := by
  decide

/-- C4 (amended): for every synthesis invocation that sends N audio_chunk
messages, the chunk_index values are exactly 1, 2, ..., N (strictly
increasing, no gaps, starting at 1); at most one chunk has is_final=true and
any such chunk is the one with index N; and exactly one chunk (the one with
index N) has is_final=true precisely when the upstream stream yields a
final message that carries audio — when the stream ends without one (closed
connection, receive error, or a final message with no audio field), no sent
chunk is flagged final. -/
theorem audio_chunk_stream_shape (upstream : List MurfMsg) :
    ((audioChunksSent upstream).map (fun c => c.chunk_index)
        = List.range' 1 (audioChunksSent upstream).length) ∧
    (∀ c ∈ audioChunksSent upstream, c.is_final = true →
        c.chunk_index = (audioChunksSent upstream).length) ∧
    ((audioChunksSent upstream).countP (fun c => c.is_final)
        = if (streamYield upstream).any (fun m => m.final && m.audio.isSome)
          then 1 else 0) := by
  refine ⟨?_, ?_, ?_⟩
  · simpa [audioChunksSent] using sendChunks_map_index (streamYield upstream) 0
  · intro c hc hfin
    simpa [audioChunksSent] using
      sendChunks_final_index (streamYield upstream) 0
        (onlyLastFinal_streamYield upstream) c hc hfin
  · exact sendChunks_countFinal (streamYield upstream) 0
      (onlyLastFinal_streamYield upstream)

/-- Witness for C4 (amended): a two-chunk stream ending in a final audio
message; the final-flagged chunk is the one with index N = 2. -/
theorem audio_chunk_stream_shape_witness :
    (⟨"Yg==", true, 2⟩ : AudioChunk).chunk_index
      = (audioChunksSent [⟨some "YQ==", false⟩, ⟨some "Yg==", true⟩]).length :=
  (audio_chunk_stream_shape [⟨some "YQ==", false⟩, ⟨some "Yg==", true⟩]).2.1
    ⟨"Yg==", true, 2⟩ (by decide) rfl

/-- LLM increment messages are never terminal. -/
theorem countP_terminal_llm_chunks (l : List String) :
    List.countP (isTerminalMsg ∘ Msg.llm_chunk) l = 0 :=
  List.countP_eq_zero.mpr (fun a _ => by simp [isTerminalMsg, Function.comp])

/-- Audio chunk messages are never terminal. -/
theorem countP_terminal_audio_chunks (l : List AudioChunk) :
    List.countP (isTerminalMsg ∘ fun c => Msg.audio_chunk c.data c.is_final c.chunk_index)
      l = 0 :=
  List.countP_eq_zero.mpr (fun a _ => by simp [isTerminalMsg, Function.comp])

/-- C7: every pipeline invocation started from a committed transcript sends
exactly one terminal message — `pipeline_complete` on the success path,
`pipeline_error` whenever the generation or synthesis stage raises
(main.py:1462-1560: the whole body is wrapped in try/except and the except
branch sends a single `pipeline_error`) — never zero and never two, for
every combination of stage outcomes. -/
theorem pipeline_one_terminal (transcript : String) (chat0 : List ChatMsg)
    (llm : StreamOutcome String) (tts : StreamOutcome MurfMsg) :
    ((process_with_llm_and_tts transcript chat0 llm tts).1).countP isTerminalMsg
      = 1 := by
  cases llm with
  | fail chunks e =>
      simp [process_with_llm_and_tts, List.countP_append, List.countP_cons,
        countP_terminal_llm_chunks, isTerminalMsg]
  | ok chunks =>
      cases tts with
      | fail ms e =>
          simp [process_with_llm_and_tts, List.countP_append, List.countP_cons,
            countP_terminal_llm_chunks, countP_terminal_audio_chunks, isTerminalMsg]
      | ok ms =>
          simp [process_with_llm_and_tts, List.countP_append, List.countP_cons,
            countP_terminal_llm_chunks, countP_terminal_audio_chunks, isTerminalMsg]

/-- C9: for every connection to the complete voice-agent endpoint, whatever
keys the configuration holds, service initialization fails — the calls
`Config.get_api_key("ASSEMBLYAI", session_id)` etc. (main.py:1258-1260) pass
two positional arguments to the one-parameter method of config.py:91 and
raise `TypeError` — so the connection is closed with code 1011 and the
`ready` message is never sent to any client. -/
theorem init_always_fails (cfg : ConfigState) (sid : String) :
    (serviceInit cfg sid).1 = InitResult.closed1011 ∧
    (endpoint_setup cfg sid).1 = InitResult.closed1011 ∧
    Msg.ready ∉ (endpoint_setup cfg sid).2.1 ∧
    (endpoint_setup cfg sid).2.2 = [Action.close_ws 1011] := by
  have h : serviceInit cfg sid = (.closed1011, initErrorMsgs, [.close_ws 1011]) := rfl
  refine ⟨by rw [h], ?_, ?_, ?_⟩ <;>
    simp [endpoint_setup, h, initErrorMsgs]

/-- C8: for every connection whose session lacks a required upstream
credential (AssemblyAI, Murf, or Gemini), the connection is closed with
close code 1011 before any binary audio frame is accepted or forwarded —
the receive loop, the only place frames are read and streamed, is never
reached — and the session performs no pipeline work.  (Initialization in
fact fails for every configuration; the missing-credential sessions are a
special case of that.) -/
theorem missing_key_closes_1011 (cfg : ConfigState) (sid : String)
    (hmissing : get_api_key cfg "ASSEMBLYAI" = none ∨
      get_api_key cfg "MURF" = none ∨ get_api_key cfg "GEMINI" = none) :
    (endpoint_setup cfg sid).1 = InitResult.closed1011 ∧
    Msg.ready ∉ (endpoint_setup cfg sid).2.1 ∧
    (endpoint_setup cfg sid).2.2 = [Action.close_ws 1011] ∧
    ∀ n, Action.stream_audio n ∉ (endpoint_setup cfg sid).2.2 := by
  have h : serviceInit cfg sid = (.closed1011, initErrorMsgs, [.close_ws 1011]) := rfl
  refine ⟨?_, ?_, ?_, ?_⟩ <;>
    simp [endpoint_setup, h, initErrorMsgs]

/-- Witness for C8: the empty configuration — no runtime keys, no
environment keys — lacks the AssemblyAI credential, and its connection is
closed with code 1011. -/
theorem missing_key_closes_1011_witness :
    get_api_key
        { runtime_api_keys := [], MURF_API_KEY := none, ASSEMBLYAI_API_KEY := none,
          GEMINI_API_KEY := none, TAVILY_API_KEY := none, OPENWEATHER_API_KEY := none,
          NEWS_API_KEY := none, GOOGLE_TRANSLATE_API_KEY := none } "ASSEMBLYAI" = none ∧
    (endpoint_setup
        { runtime_api_keys := [], MURF_API_KEY := none, ASSEMBLYAI_API_KEY := none,
          GEMINI_API_KEY := none, TAVILY_API_KEY := none, OPENWEATHER_API_KEY := none,
          NEWS_API_KEY := none, GOOGLE_TRANSLATE_API_KEY := none } "default").1
      = InitResult.closed1011 :=
  ⟨by decide,
    (missing_key_closes_1011
      { runtime_api_keys := [], MURF_API_KEY := none, ASSEMBLYAI_API_KEY := none,
        GEMINI_API_KEY := none, TAVILY_API_KEY := none, OPENWEATHER_API_KEY := none,
        NEWS_API_KEY := none, GOOGLE_TRANSLATE_API_KEY := none } "default"
      (Or.inl (by decide))).1⟩

/-- C10 counterexample: an empty binary frame received while recording
consists (vacuously) entirely of zero bytes, yet it is not silently
dropped: the silence-ratio computation `(len(audio_data) - non_zero_bytes)
/ len(audio_data)` (main.py:1685) divides by zero, raising an exception the
receive loop does not catch, so the claim "frames consisting entirely of
zero bytes are silently dropped" fails at the empty frame. -/
theorem empty_frame_counterexample :
    (binaryFrameHandler true []).1 = FrameOutcome.zero_div_error ∧
    FrameOutcome.zero_div_error ≠ FrameOutcome.skipped_silent ∧
    (([] : List Nat).all (fun b => b == 0)) = true := by
  decide

/-- C10 (amended): for every non-empty binary frame received while
recording, the frame is forwarded to the recognizer adapter if and only if
it contains at least one non-zero byte; non-empty frames consisting
entirely of zero bytes are silently dropped and never reach the recognizer;
an empty frame instead raises `ZeroDivisionError` (main.py:1685), aborting
the receive loop rather than being silently dropped. -/
theorem binary_frame_forwarding (frame : List Nat) :
    (frame ≠ [] →
      ((binaryFrameHandler true frame).1 = FrameOutcome.forwarded ↔
        ∃ b ∈ frame, b ≠ 0)) ∧
    (frame ≠ [] → (∀ b ∈ frame, b = 0) →
      binaryFrameHandler true frame = (FrameOutcome.skipped_silent, [])) ∧
    ((binaryFrameHandler true frame).1 = FrameOutcome.forwarded →
      (binaryFrameHandler true frame).2 = [Action.stream_audio frame.length]) ∧
    binaryFrameHandler true [] = (FrameOutcome.zero_div_error, []) := by
  by_cases hne : frame = []
  · subst hne
    exact ⟨fun h => absurd rfl h, fun h => absurd rfl h, by decide, by decide⟩
  · have hlen : ¬ frame.length = 0 := fun h => hne (List.length_eq_zero.mp h)
    by_cases hcz : 0 < frame.countP (fun b => b != 0)
    · have hh : binaryFrameHandler true frame
          = (FrameOutcome.forwarded, [Action.stream_audio frame.length]) := by
        simp [binaryFrameHandler, hlen, hcz]
      refine ⟨?_, ?_, ?_, by decide⟩
      · intro _
        rw [hh]
        constructor
        · intro _
          obtain ⟨b, hb, hbne⟩ := List.countP_pos_iff.mp hcz
          exact ⟨b, hb, by simpa using hbne⟩
        · intro _
          rfl
      · intro _ hall
        exfalso
        obtain ⟨b, hb, hbne⟩ := List.countP_pos_iff.mp hcz
        exact (by simpa using hbne : b ≠ 0) (hall b hb)
      · intro _
        rw [hh]
    · have hh : binaryFrameHandler true frame = (FrameOutcome.skipped_silent, []) := by
        simp [binaryFrameHandler, hlen, hcz]
      refine ⟨?_, ?_, ?_, by decide⟩
      · intro _
        rw [hh]
        constructor
        · intro hcontra
          exact absurd hcontra (by simp)
        · rintro ⟨b, hb, hbne⟩
          exact absurd (List.countP_pos_iff.mpr ⟨b, hb, by simpa using hbne⟩) hcz
      · intro _ _
        exact hh
      · intro hcontra
        rw [hh] at hcontra
        simp at hcontra

/-- Witness for C10 (amended): a frame with one non-zero byte is
forwarded. -/
theorem binary_frame_forwarding_witness :
    (binaryFrameHandler true [0, 7]).1 = FrameOutcome.forwarded :=
  ((binary_frame_forwarding [0, 7]).1 (by decide)).mpr ⟨7, by decide, by decide⟩

end VoiceAgent
